import Mathlib

/-!
Verification development for the MOH polyclinic ETL pipeline
(`src/data_processing/data_extractor.py`, `data_validator.py`, `etl_pipeline.py`).

The Python modules are shallowly embedded: the batch-extraction paging loop
of `DataExtractor.extract_data`, the `retry_on_failure` decorator, the
checkpoint store, the `DataValidator` check suite and the orchestrator's
validation gating are translated into executable Lean definitions, and the
specification's claims about them are proved or refuted below.

Modelling conventions:
- SQL pages are modelled by `List.take`/`List.drop` over the list of rows
  the upstream source would serve for the query (`LIMIT batch_size OFFSET n`).
- `datetime` values are modelled as natural-number timestamps; the wall
  clock is an explicit parameter.
- pandas DataFrames are modelled as a column list plus rows of
  column-name/value pairs; `NaN`/`None` is `Value.vNull`.
- Python dict lookups are `List.lookup` (or functions for the checkpoint
  dict); `dict.get(k, d)` becomes `(·.lookup k).getD d`.
- Float percentages are modelled exactly over `Rat`.
-/

/-! ## Batch extraction loop (`DataExtractor.extract_data`, lines 174-207)

The Python loop repeatedly reads a page of `batch_size` rows at the current
offset, stops on an empty page, appends the page otherwise, advances the
offset, and also stops after appending a short page.  `extract_batch_loop`
recurses on the rows remaining past the current offset (page at offset `o`
is `(rows.drop o).take B`, and `rows.drop (o + B) = (rows.drop o).drop B`);
the fuel argument is only a structural-recursion bound and
`extract_data_batches` supplies enough of it.  The second component counts
the page fetches (`pd.read_sql` calls) issued. -/

def extract_batch_loop (B : Nat) : Nat → List α → List (List α) × Nat
  | 0, _ => ([], 0)
  | fuel + 1, remaining =>
    let page := remaining.take B
    if page.length = 0 then ([], 1)
    else if page.length < B then ([page], 1)
    else
      let r := extract_batch_loop B fuel (remaining.drop B)
      (page :: r.1, r.2 + 1)

def extract_data_batches (rows : List α) (B : Nat) : List (List α) × Nat :=
  extract_batch_loop B (rows.length + 1) rows

lemma extract_batch_loop_count (B : Nat) (hB : 0 < B) :
    ∀ (fuel : Nat) (l : List α), l.length < fuel →
      (extract_batch_loop B fuel l).2 = l.length / B + 1 := by
  intro fuel
  induction fuel with
  | zero => intro l hl; omega
  | succ fuel ih =>
    intro l hl
    by_cases h0 : l.length = 0
    · simp [extract_batch_loop, List.length_take, Nat.min_def, h0]
    · by_cases hshort : l.length < B
      · have hmin : min B l.length = l.length := by omega
        have hdiv : l.length / B = 0 := Nat.div_eq_of_lt hshort
        simp [extract_batch_loop, List.length_take, hmin, h0, hshort, hdiv]
      · have hge : B ≤ l.length := by omega
        have hmin : min B l.length = B := by omega
        have hrec := ih (l.drop B) (by simp [List.length_drop]; omega)
        have hBne : ¬ B = 0 := by omega
        have hBlt : ¬ B < B := by omega
        simp only [extract_batch_loop, List.length_take, hmin, hBne, hBlt,
          if_false, ite_false]
        rw [hrec]
        simp only [List.length_drop]
        rw [Nat.div_eq_sub_div hB hge]

lemma extract_batch_loop_join (B : Nat) (hB : 0 < B) :
    ∀ (fuel : Nat) (l : List α), l.length < fuel →
      (extract_batch_loop B fuel l).1.flatten = l := by
  intro fuel
  induction fuel with
  | zero => intro l hl; omega
  | succ fuel ih =>
    intro l hl
    by_cases h0 : l.length = 0
    · have : l = [] := List.length_eq_zero.mp h0
      simp [extract_batch_loop, this]
    · by_cases hshort : l.length < B
      · have hmin : min B l.length = l.length := by omega
        have htake : l.take B = l := List.take_of_length_le (by omega)
        simp [extract_batch_loop, List.length_take, hmin, h0, hshort, htake]
      · have hge : B ≤ l.length := by omega
        have hmin : min B l.length = B := by omega
        have hrec := ih (l.drop B) (by simp [List.length_drop]; omega)
        have hBne : ¬ B = 0 := by omega
        have hBlt : ¬ B < B := by omega
        simp only [extract_batch_loop, List.length_take, hmin, hBne, hBlt,
          if_false, ite_false, List.flatten]
        rw [hrec, List.take_append_drop]

lemma div_succ_eq_ceil_add (n B : Nat) (hB : 0 < B) :
    n / B + 1 = (n + B - 1) / B + (if n % B = 0 then 1 else 0) := by
  have hn := Nat.div_add_mod n B
  by_cases h : n % B = 0
  · have hrw : n + B - 1 = B * (n / B) + (B - 1) := by omega
    have hz : (B - 1) / B = 0 := Nat.div_eq_of_lt (by omega)
    rw [hrw, Nat.mul_add_div hB, hz]
    simp [h]
  · have hmod := Nat.mod_lt n hB
    have hpos : 0 < n % B := Nat.pos_of_ne_zero h
    have hrw : n + B - 1 = B * (n / B + 1) + (n % B - 1) := by
      rw [Nat.mul_add, Nat.mul_one]
      omega
    have hz : (n % B - 1) / B = 0 := Nat.div_eq_of_lt (by omega)
    rw [hrw, Nat.mul_add_div hB, hz]
    simp [h]

/-- C1 (amended): for a source with `R` available rows and batch size `B > 0`,
the batch loop issues `ceil(R/B)` page fetches plus exactly one extra
zero-row fetch iff `R` is a multiple of `B` (including `R = 0`, which costs
one empty fetch), and the concatenated result contains exactly the `R`
available rows. -/
theorem extract_data_paging (rows : List α) (B : Nat) (hB : 0 < B) :
    (extract_data_batches rows B).2
        = (rows.length + B - 1) / B + (if rows.length % B = 0 then 1 else 0)
      ∧ ((extract_data_batches rows B).1.flatten).length = rows.length := by
  have hc := extract_batch_loop_count B hB (rows.length + 1) rows (Nat.lt_succ_self _)
  have hj := extract_batch_loop_join B hB (rows.length + 1) rows (Nat.lt_succ_self _)
  constructor
  · rw [extract_data_batches, hc, div_succ_eq_ceil_add _ _ hB]
  · rw [extract_data_batches, hj]

/-- C1 witness: 5 rows at batch size 2 cost `ceil(5/2) = 3` fetches with no
trailing empty fetch, and all 5 rows are returned. -/
theorem extract_data_paging_witness :
    (extract_data_batches ([0, 1, 2, 3, 4] : List Nat) 2).2
        = (5 + 2 - 1) / 2 + (if 5 % 2 = 0 then 1 else 0)
      ∧ ((extract_data_batches ([0, 1, 2, 3, 4] : List Nat) 2).1.flatten).length = 5 :=
  extract_data_paging ([0, 1, 2, 3, 4] : List Nat) 2 (by decide)

/-- C1 counterexample: with `R = 0` available rows and `B = 1` the claim's
fetch-count formula `ceil(R/B)` plus an extra fetch only for *positive*
multiples of `B` predicts `0` fetches, but the loop issues one (empty)
fetch before it can terminate. -/
theorem extract_data_paging_cex :
    (extract_data_batches ([] : List Unit) 1).2
      ≠ (0 + 1 - 1) / 1 + (if 0 % 1 = 0 ∧ 0 < 0 then 1 else 0) := by
  decide

/-! ## Retry decorator (`retry_on_failure`, lines 31-50)

The decorator runs the wrapped call up to `max_retries` times; every caught
exception before the final attempt logs a warning and sleeps for the fixed
delay, and the final attempt's exception is re-raised unchanged.  The model
returns the final outcome (`none` only when `max_retries = 0`, where the
Python `for` body never runs), the number of attempts made, and the number
of delay sleeps taken. -/

def retry_attempts (f : Nat → Except ε α) : Nat → Nat → Option (Except ε α) × Nat × Nat
  | _, 0 => (none, 0, 0)
  | attempt, remaining + 1 =>
    match f attempt with
    | Except.ok a => (some (Except.ok a), 1, 0)
    | Except.error e =>
      if remaining = 0 then (some (Except.error e), 1, 0)
      else
        let r := retry_attempts f (attempt + 1) remaining
        (r.1, r.2.1 + 1, r.2.2 + 1)

def retry_on_failure (maxRetries : Nat) (f : Nat → Except ε α) :
    Option (Except ε α) × Nat × Nat :=
  retry_attempts f 0 maxRetries

/-! ## Extraction configuration checks (`DataExtractor.extract_data`, lines 111-171)

`extract_data` fails with a `ValueError` when the source is missing from
`data_sources`, when `queries` has no template for it, or when the selected
query string is empty.  Query selection (lines 162-171) prefers the
incremental template when extracting incrementally, then the full template,
then the generic `query` entry defaulting to the empty string.  The rows
the database would serve are abstracted as the `available` list. -/

structure SourceConfig where
  incremental : Bool := false
  primary_key : Option String := none
  date_column : Option String := none
deriving DecidableEq

structure QueryTemplate where
  incremental_query : Option String := none
  full_query : Option String := none
  query : Option String := none
deriving DecidableEq

structure ExtractionSettings where
  batch_size : Nat
  incremental_enabled : Bool
deriving DecidableEq

structure ExtractorConfig where
  data_sources : String → Option SourceConfig
  queries : String → Option QueryTemplate
  settings : ExtractionSettings

inductive ExtractError where
  | unknownSource (source : String)
  | noQueryTemplate (source : String)
  | noValidQuery (source : String)
deriving DecidableEq

def select_query (incremental : Bool) (qt : QueryTemplate) : String :=
  if incremental && qt.incremental_query.isSome then qt.incremental_query.getD ""
  else if qt.full_query.isSome then qt.full_query.getD ""
  else qt.query.getD ""

/-- A single (unretried) body of `extract_data`: the configuration checks
followed by the batch loop over the rows the source would serve. -/
def extract_data_attempt (cfg : ExtractorConfig) (source : String)
    (incrementalArg : Option Bool) (available : List α) :
    Except ExtractError (List α) :=
  match cfg.data_sources source with
  | none => Except.error (ExtractError.unknownSource source)
  | some sc =>
    let incr := incrementalArg.getD (sc.incremental && cfg.settings.incremental_enabled)
    match cfg.queries source with
    | none => Except.error (ExtractError.noQueryTemplate source)
    | some qt =>
      if select_query incr qt = "" then Except.error (ExtractError.noValidQuery source)
      else Except.ok (extract_data_batches available cfg.settings.batch_size).1.flatten

/-- The public `extract_data`, wrapped in `@retry_on_failure(max_retries=3, delay=5)`. -/
def extract_data_retried (cfg : ExtractorConfig) (source : String)
    (incrementalArg : Option Bool) (available : List α) :
    Option (Except ExtractError (List α)) × Nat × Nat :=
  retry_on_failure 3 (fun _ => extract_data_attempt cfg source incrementalArg available)

/-- C3 (amended): a configuration error raised inside `extract_data` is
caught by the retry decorator like any other exception: the call is
attempted 3 times with the fixed delay slept between attempts (2 sleeps),
after which the same configuration error propagates unchanged. -/
theorem config_error_exhausts_retries (cfg : ExtractorConfig) (source : String)
    (incrementalArg : Option Bool) (available : List Nat) (e : ExtractError)
    (h : extract_data_attempt cfg source incrementalArg available = Except.error e) :
    extract_data_retried cfg source incrementalArg available
      = (some (Except.error e), 3, 2) := by
  simp [extract_data_retried, retry_on_failure, retry_attempts, h]

/-- A configuration with no configured data sources at all, under which any
`extract_data` call hits the unknown-source configuration error. -/
def cfgNoSources : ExtractorConfig :=
  ⟨fun _ => none, fun _ => none, ⟨1000, true⟩⟩

/-- C3 witness: with no configured sources, extracting `attendances` makes
all 3 attempts, sleeps twice, and then fails with the unknown-source error. -/
theorem config_error_exhausts_retries_witness :
    extract_data_retried cfgNoSources "attendances" none ([] : List Nat)
      = (some (Except.error (ExtractError.unknownSource "attendances")), 3, 2) :=
  config_error_exhausts_retries cfgNoSources "attendances" none []
    (ExtractError.unknownSource "attendances") rfl

/-- C3 counterexample: the claim says a configuration error fails the call
immediately — one attempt, no sleeps — but with no configured sources the
call to `extract_data` consumes 3 attempts and 2 sleeps. -/
theorem config_error_exhausts_retries_cex :
    ¬ ((extract_data_retried cfgNoSources "attendances" none ([] : List Nat)).2 = (1, 0)) := by
  decide

/-! ## Checkpoint store (`_save_checkpoint`, `get_last_extraction_date`,
and the save site at lines 209-224 of `extract_data`)

Checkpoints are a dict from source name to timestamp, modelled as a
function to `Option Nat`.  `extract_data` saves a checkpoint only after the
whole batch loop succeeded, only in incremental mode, and only when at
least one page of data was accumulated (`if all_data:`); the value saved is
`datetime.now()` at completion, not anything read from the data.  A failed
run raises out of the loop before the save site, so it never writes. -/

def save_checkpoint (ck : String → Option Nat) (source : String) (t : Nat) :
    String → Option Nat :=
  fun s => if s = source then some t else ck s

def get_last_extraction_date (ck : String → Option Nat) (source : String) :
    Option Nat :=
  ck source

/-- One incremental `extract_data` run against the checkpoint store:
`outcome = none` models a run that raised (after exhausting retries);
`outcome = some rows` models a run that returned rows without error, where
an empty `rows` is the `all_data == []` branch that skips the save.  `now`
is the wall clock at completion and `rows` carries the row timestamps the
source served (unused by the checkpoint logic). -/
def run_incremental_extract (ck : String → Option Nat) (source : String)
    (now : Nat) (outcome : Option (List Nat)) : String → Option Nat :=
  match outcome with
  | none => ck
  | some rows => if rows.isEmpty then ck else save_checkpoint ck source now

/-- C2: provided the wall clock does not run backwards (`prev ≤ now`), any
incremental run — successful with data, successful without data, or failed
— leaves `get_last_extraction_date` at a value `≥` the previous one, and a
failed run leaves the stored checkpoint exactly unchanged. -/
theorem checkpoint_monotone_spec (ck : String → Option Nat) (source : String)
    (now : Nat) (outcome : Option (List Nat)) (prev : Nat)
    (hprev : get_last_extraction_date ck source = some prev)
    (hclock : prev ≤ now) :
    (∃ t, get_last_extraction_date (run_incremental_extract ck source now outcome) source
            = some t ∧ prev ≤ t)
      ∧ run_incremental_extract ck source now none = ck := by
  refine ⟨?_, rfl⟩
  match outcome with
  | none => exact ⟨prev, hprev, le_refl prev⟩
  | some rows =>
    by_cases hrows : rows.isEmpty
    · simp only [run_incremental_extract, hrows, if_true]
      exact ⟨prev, hprev, le_refl prev⟩
    · refine ⟨now, ?_, hclock⟩
      simp [run_incremental_extract, hrows, save_checkpoint, get_last_extraction_date]

/-- An example checkpoint store holding timestamp 3 for `attendances`. -/
def ckExample : String → Option Nat :=
  fun s => if s = "attendances" then some 3 else none

/-- C2 witness: from a stored checkpoint of 3, a successful run at time 7
moves the checkpoint to a value `≥ 3`, and a failed run leaves the store
unchanged. -/
theorem checkpoint_monotone_spec_witness :
    (∃ t, get_last_extraction_date
            (run_incremental_extract ckExample "attendances" 7 (some [42])) "attendances"
            = some t ∧ 3 ≤ t)
      ∧ run_incremental_extract ckExample "attendances" 7 none = ckExample :=
  checkpoint_monotone_spec ckExample "attendances" 7 (some [42]) 3 (by decide) (by decide)

/-- C4 (amended): an incremental run that completes without error *and
returns at least one row* advances the checkpoint to the wall-clock instant
`now` at completion — whatever row timestamps the data carried — while an
error-free run with zero rows leaves the checkpoint untouched. -/
theorem incremental_checkpoint_advances_to_now (ck : String → Option Nat)
    (source : String) (now : Nat) (rows : List Nat) (h : rows ≠ []) :
    get_last_extraction_date (run_incremental_extract ck source now (some rows)) source
      = some now := by
  have hrows : rows.isEmpty = false := by
    cases rows with
    | nil => exact absurd rfl h
    | cons a t => rfl
  simp [run_incremental_extract, hrows, save_checkpoint, get_last_extraction_date]

/-- C4 witness: a successful run at wall-clock time 10 whose single row has
timestamp 999 stores checkpoint 10 (the clock), not 999 (the data). -/
theorem incremental_checkpoint_advances_to_now_witness :
    get_last_extraction_date
        (run_incremental_extract ckExample "attendances" 10 (some [999])) "attendances"
      = some 10 :=
  incremental_checkpoint_advances_to_now ckExample "attendances" 10 [999] (by decide)

/-- C4 counterexample: a run that completes without error but extracts zero
rows does not advance the checkpoint to `now = 10`; the stored value stays
at the old 3, refuting the claim for row-less successful runs. -/
theorem incremental_checkpoint_empty_run_cex :
    get_last_extraction_date
        (run_incremental_extract ckExample "attendances" 10 (some [])) "attendances"
      ≠ some 10 := by
  decide

/-! ## Tabular data model (`pandas.DataFrame` as consumed by `DataValidator`)

A dataset is a list of column names plus rows of name/value pairs; a cell
is a string, an integer, or null (`NaN`/`None`).  Column access maps each
row to its value for the column (null when absent, matching `NaN` padding). -/

inductive Value where
  | vNull
  | vInt (n : Int)
  | vStr (s : String)
deriving DecidableEq, Repr

abbrev Row := List (String × Value)

structure DataFrame where
  cols : List String
  rows : List Row
deriving DecidableEq, Repr

def rowVal (r : Row) (c : String) : Value :=
  (r.lookup c).getD Value.vNull

def colValues (df : DataFrame) (c : String) : List Value :=
  df.rows.map (fun r => rowVal r c)

def isNullV : Value → Bool
  | Value.vNull => true
  | _ => false

def nullCount (df : DataFrame) (c : String) : Nat :=
  (colValues df c).countP isNullV

/-! ## Python substring membership (`c in s`)

`containsSub needle hay` is Python's `needle in hay` on the character lists
of the two strings; `strContains` lifts it to `String`. -/

def containsSub (needle : List Char) : List Char → Bool
  | [] => needle.isEmpty
  | c :: t => needle.isPrefixOf (c :: t) || containsSub needle t

def strContains (hay needle : String) : Bool :=
  containsSub needle.toList hay.toList

lemma containsSub_iff (needle : List Char) :
    ∀ hay : List Char, containsSub needle hay = true ↔ needle <:+: hay := by
  intro hay
  induction hay with
  | nil =>
    simp [containsSub, List.isEmpty_iff]
  | cons c t ih =>
    simp only [containsSub, Bool.or_eq_true, ih, List.isPrefixOf_iff_prefix]
    exact (List.infix_cons_iff).symm

lemma strContains_iff (hay needle : String) :
    strContains hay needle = true ↔ needle.toList <:+: hay.toList :=
  containsSub_iff needle.toList hay.toList

lemma isPrefixOf_append (l m : List Char) : l.isPrefixOf (l ++ m) = true := by
  rw [List.isPrefixOf_iff_prefix]
  exact List.prefix_append l m

lemma containsSub_self_append (n r : List Char) :
    containsSub n (n ++ r) = true := by
  cases n with
  | nil =>
    induction r with
    | nil => rfl
    | cons c t iht => simp [containsSub, List.isPrefixOf]
  | cons c t =>
    simp only [List.cons_append, containsSub, Bool.or_eq_true]
    left
    exact isPrefixOf_append (c :: t) r

lemma strContains_append_self (n m : String) :
    strContains (n ++ m) n = true := by
  unfold strContains
  show containsSub n.data (n ++ m).data = true
  rw [String.data_append]
  exact containsSub_self_append n.data m.data

/-! ## Validation results (`ValidationResult`, lines 26-48)

`details` is a Python dict of evidence; it is modelled as a record whose
fields are the keys the checks actually write, `none` meaning the key is
absent.  The `timestamp` attribute (wall clock at construction) is
environment input irrelevant to every claim and is not modelled.  Message
strings are kept but without the interpolated numbers. -/

structure NullIssue where
  column : String
  null_count : Nat
  null_percentage : Rat
deriving DecidableEq, Repr

structure DateIssue where
  column : String
  issue : String
  count : Nat
deriving DecidableEq, Repr

structure TypeIssue where
  column : String
  non_numeric_count : Nat
deriving DecidableEq, Repr

structure RangeIssue where
  column : String
  count : Nat
  min_value : Option Int
deriving DecidableEq, Repr

structure Details where
  checked : Option Bool := none
  row_count : Option Nat := none
  min_required : Option Nat := none
  critical_columns : Option (List String) := none
  null_issues : Option (List NullIssue) := none
  max_null_percentage : Option Rat := none
  key_columns : Option (List String) := none
  duplicate_count : Option Nat := none
  sample_duplicates : Option (List Row) := none
  date_issues : Option (List DateIssue) := none
  validated_columns : Option (List String) := none
  type_issues : Option (List TypeIssue) := none
  range_issues : Option (List RangeIssue) := none
  parent : Option String := none
  foreign_key : Option String := none
  orphaned_count : Option Nat := none
  sample_orphaned_keys : Option (List Value) := none
deriving DecidableEq, Repr

structure VResult where
  check_name : String
  passed : Bool
  message : String
  details : Details
deriving DecidableEq, Repr

/-! ## Validator configuration (`DataValidator.__init__` and `config/database.yml`)

The quality-checks section of the YAML configuration, with the `.get`
defaults of the Python code already resolved into the field defaults.
`parse_date` abstracts `pd.to_datetime(..., errors='coerce')` (a pure
external parser returning `none` for `NaT`), and `min_date`/`max_date` are
the already-parsed bounds. -/

structure Relationship where
  child : String
  parent : String
  foreign_key : String
deriving DecidableEq, Repr

structure QualityConfig where
  row_count_enabled : Bool := true
  min_rows : Nat := 100
  critical_columns : List String := []
  max_null_percentage : Rat := 5
  date_validation_enabled : Bool := true
  min_date : Int := 0
  max_date : Int := 0
  duplicate_checks_enabled : Bool := true
  dup_key_columns : List String := []
  ref_integrity_enabled : Bool := true
  relationships : List Relationship := []

structure ValidatorConfig where
  quality : QualityConfig
  data_sources : List (String × SourceConfig)
  parse_date : Value → Option Int

def round2 (q : Rat) : Rat :=
  (round (q * 100) : Int) / 100

/-! ## The individual checks (`DataValidator._validate_*`) -/

/-- `_validate_row_count` (lines 126-144). -/
def validate_row_count (cfg : ValidatorConfig) (df : DataFrame) : VResult :=
  let min_rows := cfg.quality.min_rows
  let rc := df.rows.length
  if min_rows ≤ rc then
    { check_name := "row_count", passed := true
      message := "Row count meets minimum threshold"
      details := { row_count := some rc, min_required := some min_rows } }
  else
    { check_name := "row_count", passed := false
      message := "Row count below minimum threshold"
      details := { row_count := some rc, min_required := some min_rows } }

/-- `_validate_null_values` (lines 146-177): for each configured critical
column present in the data, the null percentage is
`null_count / len(data) * 100`; columns exceeding `max_null_percentage`
are collected as issues and the check passes iff there are none. -/
def null_issue_entry (cfg : ValidatorConfig) (df : DataFrame) (c : String) :
    Option NullIssue :=
  if df.cols.contains c then
    let nc := nullCount df c
    let pct := ((nc : Rat) / (df.rows.length : Rat)) * 100
    if cfg.quality.max_null_percentage < pct then some ⟨c, nc, round2 pct⟩ else none
  else none

def validate_null_values (cfg : ValidatorConfig) (df : DataFrame) : VResult :=
  let crit := cfg.quality.critical_columns
  let maxp := cfg.quality.max_null_percentage
  let issues := crit.filterMap (null_issue_entry cfg df)
  if issues.isEmpty then
    { check_name := "null_values", passed := true
      message := "All critical columns meet null value thresholds"
      details := { critical_columns := some crit } }
  else
    { check_name := "null_values", passed := false
      message := "Found columns exceeding null value threshold"
      details := { null_issues := some issues, max_null_percentage := some maxp } }

/-- `_validate_date_ranges` (lines 179-252): candidate columns are the
source's declared date column plus every column whose lower-cased name
contains "date"; values failing to parse beyond the nulls already present
are invalid-format issues, and parsed values outside the configured bounds
are range issues. -/
def validate_date_ranges (cfg : ValidatorConfig) (df : DataFrame) (source : String) :
    VResult :=
  let sc := ((cfg.data_sources.lookup source).getD {})
  let base := match sc.date_column with
    | some c => [c]
    | none => []
  let named := df.cols.filter (fun c => strContains c.toLower "date")
  let date_cols := (base ++ named).dedup
  let issues := date_cols.flatMap (fun c =>
    if df.cols.contains c then
      let vals := colValues df c
      let parsed := vals.map cfg.parse_date
      let invalid := parsed.countP (fun o => o.isNone) - vals.countP isNullV
      let fmtIssues := if 0 < invalid then [(⟨c, "invalid_format", invalid⟩ : DateIssue)] else []
      let tooEarly := parsed.countP (fun o =>
        match o with
        | some d => decide (d < cfg.quality.min_date)
        | none => false)
      let earlyIssues := if 0 < tooEarly then [(⟨c, "before_min_date", tooEarly⟩ : DateIssue)] else []
      let tooLate := parsed.countP (fun o =>
        match o with
        | some d => decide (cfg.quality.max_date < d)
        | none => false)
      let lateIssues := if 0 < tooLate then [(⟨c, "after_max_date", tooLate⟩ : DateIssue)] else []
      fmtIssues ++ earlyIssues ++ lateIssues
    else [])
  if issues.isEmpty then
    { check_name := "date_ranges", passed := true
      message := "All date columns within valid ranges"
      details := { validated_columns := some date_cols } }
  else
    { check_name := "date_ranges", passed := false
      message := "Found date range issues"
      details := { date_issues := some issues } }

/-- Key resolution of `_validate_duplicates` (lines 256-263): the source's
declared primary key overrides the configured generic key columns when it
is present in the data. -/
def resolved_dup_keys (cfg : ValidatorConfig) (df : DataFrame) (source : String) :
    List String :=
  let sc := ((cfg.data_sources.lookup source).getD {})
  let base := cfg.quality.dup_key_columns
  match sc.primary_key with
  | some pk => if df.cols.contains pk then [pk] else base
  | none => base

def keyTuple (keys : List String) (r : Row) : List Value :=
  keys.map (rowVal r)

/-- `data.duplicated(subset=keys, keep=False)`: every row whose key tuple
occurs in at least two rows. -/
def dup_rows (df : DataFrame) (keys : List String) : List Row :=
  df.rows.filter (fun r =>
    2 ≤ df.rows.countP (fun r2 => decide (keyTuple keys r2 = keyTuple keys r)))

/-- The `existing_keys` of `_validate_duplicates` (line 274): the resolved
key columns restricted to those present in the dataset. -/
def usable_dup_keys (cfg : ValidatorConfig) (df : DataFrame) (source : String) :
    List String :=
  (resolved_dup_keys cfg df source).filter (fun c => df.cols.contains c)

/-- `_validate_duplicates` (lines 254-304). -/
def validate_duplicates (cfg : ValidatorConfig) (df : DataFrame) (source : String) :
    VResult :=
  if (resolved_dup_keys cfg df source).isEmpty then
    { check_name := "duplicates", passed := true
      message := "No key columns defined for duplicate checking"
      details := { checked := some false } }
  else if (usable_dup_keys cfg df source).isEmpty then
    { check_name := "duplicates", passed := true
      message := "Key columns not found in data"
      details := { checked := some false } }
  else if (dup_rows df (usable_dup_keys cfg df source)).length = 0 then
    { check_name := "duplicates", passed := true
      message := "No duplicates found on keys"
      details := { key_columns := some (usable_dup_keys cfg df source)
                   duplicate_count := some 0 } }
  else
    { check_name := "duplicates", passed := false
      message := "Found duplicate records"
      details := { key_columns := some (usable_dup_keys cfg df source)
                   duplicate_count := some (dup_rows df (usable_dup_keys cfg df source)).length
                   sample_duplicates := some ((dup_rows df (usable_dup_keys cfg df source)).take 5) } }

def numeric_indicators : List String :=
  ["id", "count", "amount", "cost", "charge", "minutes", "duration"]

def isNumericValue : Value → Bool
  | Value.vInt _ => true
  | _ => false

/-- Dtype abstraction for `pd.api.types.is_numeric_dtype`: a column is
numeric when every cell is a number or null (a string cell forces the
object dtype). -/
def colIsNumericDtype (df : DataFrame) (c : String) : Bool :=
  (colValues df c).all (fun v => isNumericValue v || isNullV v)

/-- `_validate_data_types` (lines 306-339). -/
def validate_data_types (_cfg : ValidatorConfig) (df : DataFrame) : VResult :=
  let issues := df.cols.filterMap (fun c =>
    if numeric_indicators.any (fun ind => strContains c.toLower ind) then
      if colIsNumericDtype df c then none
      else
        let nn := (colValues df c).countP (fun v => !(isNullV v || isNumericValue v))
        if 0 < nn then some (⟨c, nn⟩ : TypeIssue) else none
    else none)
  if issues.isEmpty then
    { check_name := "data_types", passed := true
      message := "All columns have expected data types"
      details := {} }
  else
    { check_name := "data_types", passed := false
      message := "Found data type issues"
      details := { type_issues := some issues } }

def nonneg_indicators : List String :=
  ["count", "duration", "minutes", "age"]

def intValues (df : DataFrame) (c : String) : List Int :=
  (colValues df c).filterMap (fun v =>
    match v with
    | Value.vInt n => some n
    | _ => none)

def listMinInt : List Int → Option Int
  | [] => none
  | n :: t =>
    match listMinInt t with
    | none => some n
    | some m => some (min n m)

/-- `_validate_value_ranges` (lines 341-373). -/
def validate_value_ranges (_cfg : ValidatorConfig) (df : DataFrame) : VResult :=
  let issues := df.cols.filterMap (fun c =>
    if nonneg_indicators.any (fun ind => strContains c.toLower ind)
        && colIsNumericDtype df c then
      let neg := (intValues df c).countP (fun n => decide (n < 0))
      if 0 < neg then some (⟨c, neg, listMinInt (intValues df c)⟩ : RangeIssue) else none
    else none)
  if issues.isEmpty then
    { check_name := "value_ranges", passed := true
      message := "All numeric values within expected ranges"
      details := {} }
  else
    { check_name := "value_ranges", passed := false
      message := "Found value range issues"
      details := { range_issues := some issues } }

/-! ## Referential integrity (`_validate_referential_integrity`, lines 375-456) -/

/-- Distinct non-null values of a column: `set(df[col].dropna())`. -/
def distinct_non_null (df : DataFrame) (c : String) : List Value :=
  ((colValues df c).filter (fun v => !isNullV v)).dedup

/-- Orphaned keys: distinct non-null child foreign-key values with no match
among the parent's distinct non-null primary-key values. -/
def ref_orphans (child : DataFrame) (fk : String) (parent : DataFrame) (pk : String) :
    List Value :=
  (distinct_non_null child fk).filter (fun v => !(distinct_non_null parent pk).contains v)

/-- Parent primary-key resolution (line 410): the parent source's declared
`primary_key`, defaulting to the foreign-key column name. -/
def resolved_pk (cfg : ValidatorConfig) (parentSource fk : String) : String :=
  (((cfg.data_sources.lookup parentSource).getD {}).primary_key).getD fk

/-- One relationship's check (loop body, lines 385-449), assuming
`rel.child` matched the source being validated. -/
def validate_ref_one (cfg : ValidatorConfig) (df : DataFrame)
    (refData : List (String × DataFrame)) (rel : Relationship) : VResult :=
  match refData.lookup rel.parent with
  | none =>
    { check_name := "referential_integrity_" ++ rel.parent, passed := true
      message := "Reference data not provided"
      details := { checked := some false } }
  | some parent_df =>
    if !(df.cols.contains rel.foreign_key) then
      { check_name := "referential_integrity_" ++ rel.parent, passed := true
        message := "Foreign key column not found"
        details := { checked := some false } }
    else
      let pk := resolved_pk cfg rel.parent rel.foreign_key
      if !(parent_df.cols.contains pk) then
        { check_name := "referential_integrity_" ++ rel.parent, passed := false
          message := "Primary key column not found in parent table"
          details := { checked := some false } }
      else
        let orphans := ref_orphans df rel.foreign_key parent_df pk
        if orphans.length = 0 then
          { check_name := "referential_integrity_" ++ rel.parent, passed := true
            message := "All foreign key values have valid references"
            details := { parent := some rel.parent
                         foreign_key := some rel.foreign_key
                         orphaned_count := some 0 } }
        else
          { check_name := "referential_integrity_" ++ rel.parent, passed := false
            message := "Found orphaned records"
            details := { parent := some rel.parent
                         foreign_key := some rel.foreign_key
                         orphaned_count := some orphans.length
                         sample_orphaned_keys := some (orphans.take 10) } }

/-- `_validate_referential_integrity` (lines 375-456): one result per
configured relationship whose child is the validated source, or a single
trivial-pass placeholder when none is configured. -/
def validate_referential_integrity (cfg : ValidatorConfig) (df : DataFrame)
    (source : String) (refData : List (String × DataFrame)) : List VResult :=
  let rs := (cfg.quality.relationships.filter (fun rel => rel.child == source)).map
    (validate_ref_one cfg df refData)
  if rs.isEmpty then
    [{ check_name := "referential_integrity", passed := true
       message := "No referential integrity rules configured for this source"
       details := {} }]
  else rs

/-! ## `DataValidator.validate_all` (lines 70-124)

The checks run in a fixed order, each gated by its configuration toggle;
the dataset is threaded through every step so that the claim that the
validation engine never mutates it is a statement about this definition,
not an artefact of the embedding: each step appends its result and hands
the dataset on exactly as the Python code does (every pandas operation the
checks perform is a read). -/

def check_step (f : DataFrame → VResult) (st : DataFrame × List VResult) :
    DataFrame × List VResult :=
  (st.1, st.2 ++ [f st.1])

def gated_step (enabled : Bool) (f : DataFrame → VResult)
    (st : DataFrame × List VResult) : DataFrame × List VResult :=
  if enabled then check_step f st else st

def validate_all_st (cfg : ValidatorConfig) (source : String)
    (refData : List (String × DataFrame)) (df : DataFrame) :
    DataFrame × List VResult :=
  let s0 : DataFrame × List VResult := (df, [])
  let s1 := gated_step cfg.quality.row_count_enabled (validate_row_count cfg) s0
  let s2 := gated_step (!cfg.quality.critical_columns.isEmpty)
    (validate_null_values cfg) s1
  let s3 := gated_step cfg.quality.date_validation_enabled
    (fun d => validate_date_ranges cfg d source) s2
  let s4 := gated_step cfg.quality.duplicate_checks_enabled
    (fun d => validate_duplicates cfg d source) s3
  let s5 := check_step (validate_data_types cfg) s4
  let s6 := check_step (validate_value_ranges cfg) s5
  if !refData.isEmpty && cfg.quality.ref_integrity_enabled then
    (s6.1, s6.2 ++ validate_referential_integrity cfg s6.1 source refData)
  else s6

def validate_all (cfg : ValidatorConfig) (source : String)
    (refData : List (String × DataFrame)) (df : DataFrame) : List VResult :=
  (validate_all_st cfg source refData df).2

/-! ## Critical failures and the orchestrator gate
(`has_critical_failures`, lines 472-478; `ETLPipeline.run_validation`,
lines 128-217; `run_full_pipeline`, lines 390-494) -/

def critical_checks : List String :=
  ["row_count", "null_values", "referential_integrity"]

def has_critical_failures (results : List VResult) : Bool :=
  results.any (fun r =>
    !r.passed && critical_checks.any (fun c => strContains r.check_name c))

/-- The reference pool `run_validation` builds (lines 156-160): every
extracted dataset whose source is not configured as incremental. -/
def reference_pool (dsrc : List (String × SourceConfig))
    (data : List (String × DataFrame)) : List (String × DataFrame) :=
  data.filter (fun p => !((dsrc.lookup p.1).getD {}).incremental)

/-- The per-source loop of `run_validation` (lines 163-185): empty datasets
are skipped; after validating a source, if `stop_on_failure` is set and the
just-produced results contain a critical failure, a `ValueError` is
raised. -/
def run_validation_go (cfg : ValidatorConfig) (stop : Bool)
    (refData : List (String × DataFrame)) :
    List (String × DataFrame) → Except String Unit
  | [] => Except.ok ()
  | (s, df) :: rest =>
    if df.rows.isEmpty then run_validation_go cfg stop refData rest
    else if stop && has_critical_failures (validate_all cfg s refData df) then
      Except.error "Critical validation failures detected. Pipeline stopped."
    else run_validation_go cfg stop refData rest

def run_validation (cfg : ValidatorConfig) (stop : Bool)
    (data : List (String × DataFrame)) : Except String Unit :=
  run_validation_go cfg stop (reference_pool cfg.data_sources data) data

inductive Phase where
  | extraction
  | validation
  | transformation
  | load
deriving DecidableEq, Repr

/-- The phase sequence `run_full_pipeline` executes: extraction, then
validation, and — only when validation did not raise — transformation and
load.  (Extraction is per-source isolated and the transform/load phases'
own I/O failures are outside this model; the claims under proof concern
only the validation gate.) -/
def run_full_pipeline_phases (cfg : ValidatorConfig) (stop : Bool)
    (data : List (String × DataFrame)) : List Phase :=
  match run_validation cfg stop data with
  | Except.error _ => [Phase.extraction, Phase.validation]
  | Except.ok _ => [Phase.extraction, Phase.validation, Phase.transformation, Phase.load]

/-! ## C9: the validation engine never mutates the dataset -/

lemma gated_step_fst (b : Bool) (f : DataFrame → VResult)
    (st : DataFrame × List VResult) : (gated_step b f st).1 = st.1 := by
  unfold gated_step check_step
  split <;> rfl

lemma validate_all_st_fst (cfg : ValidatorConfig) (source : String)
    (refData : List (String × DataFrame)) (df : DataFrame) :
    (validate_all_st cfg source refData df).1 = df := by
  unfold validate_all_st
  split
  · simp [gated_step_fst, check_step]
  · simp [gated_step_fst, check_step]

/-- C9: running the full validation pass over any dataset, source, and
reference pool hands the dataset through every check unchanged: the
validation engine performs only reads, so the dataset coming out of
`validate_all` is exactly the one that went in. -/
theorem validate_all_preserves_dataset (cfg : ValidatorConfig) (source : String)
    (refData : List (String × DataFrame)) (df : DataFrame) :
    (validate_all_st cfg source refData df).1 = df :=
  validate_all_st_fst cfg source refData df

/-! ## C8: the null-value check is deterministic and idempotent -/

lemma null_issue_list_empty_iff (cfg : ValidatorConfig) (df : DataFrame) :
    (cfg.quality.critical_columns.filterMap (null_issue_entry cfg df)).isEmpty = true
      ↔ ∀ c ∈ cfg.quality.critical_columns, df.cols.contains c = true →
          ((nullCount df c : Rat) / (df.rows.length : Rat)) * 100
            ≤ cfg.quality.max_null_percentage := by
  rw [List.isEmpty_iff, List.filterMap_eq_nil_iff]
  constructor
  · intro h c hc hmem
    have := h c hc
    rw [null_issue_entry, if_pos hmem] at this
    by_contra hlt
    rw [if_pos (by exact lt_of_not_le hlt)] at this
    exact Option.some_ne_none _ this
  · intro h c hc
    rw [null_issue_entry]
    by_cases hmem : df.cols.contains c = true
    · rw [if_pos hmem, if_neg (by exact not_lt_of_le (h c hc hmem))]
    · rw [if_neg hmem]

/-- C8: the null-value check is deterministic and idempotent — running it a
second time on the dataset exactly as a full validation pass (which
includes the null check) left it yields an identical result, same pass/fail
verdict and identical `null_percentage` values in the details — and it
passes exactly when every configured critical column present in the dataset
has `null_count / row_count * 100 ≤ max_null_percentage`. -/
theorem null_value_check_idempotent (cfg : ValidatorConfig) (source : String)
    (refData : List (String × DataFrame)) (df : DataFrame) :
    (validate_null_values cfg (validate_all_st cfg source refData df).1
        = validate_null_values cfg df)
    ∧ ((validate_null_values cfg df).passed = true ↔
        ∀ c ∈ cfg.quality.critical_columns, df.cols.contains c = true →
          ((nullCount df c : Rat) / (df.rows.length : Rat)) * 100
            ≤ cfg.quality.max_null_percentage) := by
  refine ⟨by rw [validate_all_st_fst], ?_⟩
  have hpass : (validate_null_values cfg df).passed
      = (cfg.quality.critical_columns.filterMap (null_issue_entry cfg df)).isEmpty := by
    unfold validate_null_values
    simp only []
    split <;> simp_all
  rw [hpass, ← null_issue_list_empty_iff cfg df]

/-! ## C5: the critical-failure predicate and the validation gate -/

lemma run_validation_go_error (cfg : ValidatorConfig)
    (refData : List (String × DataFrame)) :
    ∀ l : List (String × DataFrame),
      (∃ p ∈ l, p.2.rows.isEmpty = false ∧
          has_critical_failures (validate_all cfg p.1 refData p.2) = true) →
      ∃ msg, run_validation_go cfg true refData l = Except.error msg := by
  intro l
  induction l with
  | nil => rintro ⟨p, hp, _⟩; cases hp
  | cons hd rest ih =>
    rintro ⟨p, hp, hne, hcrit⟩
    obtain ⟨s, df⟩ := hd
    by_cases hskip : df.rows.isEmpty
    · have hp' : p ∈ rest := by
        rcases List.mem_cons.mp hp with heq | hmem
        · exfalso
          rw [heq] at hne
          simp [hne] at hskip
        · exact hmem
      obtain ⟨msg, hmsg⟩ := ih ⟨p, hp', hne, hcrit⟩
      exact ⟨msg, by simp [run_validation_go, hskip, hmsg]⟩
    · by_cases hcr : has_critical_failures (validate_all cfg s refData df) = true
      · exact ⟨"Critical validation failures detected. Pipeline stopped.",
          by simp [run_validation_go, hskip, hcr]⟩
      · have hp' : p ∈ rest := by
          rcases List.mem_cons.mp hp with heq | hmem
          · exfalso
            rw [heq] at hcrit
            exact hcr hcrit
          · exact hmem
        obtain ⟨msg, hmsg⟩ := ih ⟨p, hp', hne, hcrit⟩
        exact ⟨msg, by simp [run_validation_go, hskip, hcr, hmsg]⟩

/-- C5: `has_critical_failures` is true exactly when some failed result's
check name contains one of `row_count`, `null_values`,
`referential_integrity` as a substring; and whenever that predicate holds
for some non-empty source in the run while `stop_on_validation_failure` is
set, the pipeline raises during validation and never reaches the Transform
or Load phases. -/
theorem critical_failure_predicate_spec (cfg : ValidatorConfig)
    (results : List VResult) (stop : Bool) (data : List (String × DataFrame))
    (hstop : stop = true)
    (hcrit : ∃ p ∈ data, p.2.rows.isEmpty = false ∧
        has_critical_failures
          (validate_all cfg p.1 (reference_pool cfg.data_sources data) p.2) = true) :
    (has_critical_failures results = true ↔
      ∃ r ∈ results, r.passed = false ∧
        ∃ c ∈ critical_checks, c.toList <:+: r.check_name.toList)
    ∧ Phase.transformation ∉ run_full_pipeline_phases cfg stop data
    ∧ Phase.load ∉ run_full_pipeline_phases cfg stop data := by
  constructor
  · simp only [has_critical_failures, List.any_eq_true, Bool.and_eq_true,
      Bool.not_eq_true', strContains_iff]
  · subst hstop
    obtain ⟨msg, hmsg⟩ := run_validation_go_error cfg
      (reference_pool cfg.data_sources data) data hcrit
    have hphases : run_full_pipeline_phases cfg true data
        = [Phase.extraction, Phase.validation] := by
      unfold run_full_pipeline_phases run_validation
      rw [hmsg]
    rw [hphases]
    constructor <;> simp

/-- A minimal configuration for witnesses: only the row-count check is
enabled, with the default 100-row minimum. -/
def cfgRowOnly : ValidatorConfig :=
  { quality :=
      { row_count_enabled := true, min_rows := 100, critical_columns := [],
        max_null_percentage := 5, date_validation_enabled := false,
        min_date := 0, max_date := 0, duplicate_checks_enabled := false,
        dup_key_columns := [], ref_integrity_enabled := false, relationships := [] }
    data_sources := []
    parse_date := fun _ => none }

def dfOneRow : DataFrame :=
  ⟨["id"], [[("id", Value.vInt 1)]]⟩

def resultsRowFail : List VResult :=
  [{ check_name := "row_count", passed := false, message := "", details := {} }]

/-- C5 witness: a one-row dataset under a 100-row minimum produces a failed
`row_count` result, the predicate fires on it, and with
`stop_on_validation_failure` the pipeline stops after validation. -/
theorem critical_failure_predicate_spec_witness :
    (has_critical_failures resultsRowFail = true ↔
      ∃ r ∈ resultsRowFail, r.passed = false ∧
        ∃ c ∈ critical_checks, c.toList <:+: r.check_name.toList)
    ∧ Phase.transformation ∉
        run_full_pipeline_phases cfgRowOnly true [("attendances", dfOneRow)]
    ∧ Phase.load ∉
        run_full_pipeline_phases cfgRowOnly true [("attendances", dfOneRow)] :=
  critical_failure_predicate_spec cfgRowOnly resultsRowFail true
    [("attendances", dfOneRow)] rfl (by decide)

/-! ## C6: the referential-integrity orphan computation -/

lemma isNullV_eq_false_iff (v : Value) : isNullV v = false ↔ v ≠ Value.vNull := by
  cases v <;> simp [isNullV]

lemma list_contains_iff {α : Type} [DecidableEq α] (l : List α) (a : α) :
    l.contains a = true ↔ a ∈ l := by
  simp [List.contains, List.elem_iff]

lemma contains_eq_false_iff {α : Type} [DecidableEq α] (l : List α) (a : α) :
    l.contains a = false ↔ a ∉ l := by
  constructor
  · intro h hmem
    rw [← list_contains_iff, h] at hmem
    cases hmem
  · intro h
    cases hc : l.contains a
    · rfl
    · exact absurd ((list_contains_iff l a).mp hc) h

lemma mem_distinct_non_null (df : DataFrame) (c : String) (v : Value) :
    v ∈ distinct_non_null df c ↔ v ∈ colValues df c ∧ v ≠ Value.vNull := by
  unfold distinct_non_null
  rw [List.mem_dedup, List.mem_filter, Bool.not_eq_true', isNullV_eq_false_iff]

lemma mem_ref_orphans_iff (child : DataFrame) (fk : String)
    (parent : DataFrame) (pk : String) (v : Value) :
    v ∈ ref_orphans child fk parent pk ↔
      v ≠ Value.vNull ∧ v ∈ colValues child fk ∧ v ∉ colValues parent pk := by
  unfold ref_orphans
  rw [List.mem_filter, Bool.not_eq_true', contains_eq_false_iff,
    mem_distinct_non_null, mem_distinct_non_null]
  constructor
  · rintro ⟨⟨hm, hn⟩, hnp⟩
    exact ⟨hn, hm, fun hp => hnp ⟨hp, hn⟩⟩
  · rintro ⟨hn, hm, hnp⟩
    exact ⟨⟨hm, hn⟩, fun hp => hnp hp.1⟩

/-- C6: with the parent dataset supplied, the foreign-key column present in
the child, and the parent's resolved primary-key column present in the
parent, the referential-integrity check computes the orphaned keys as the
distinct non-null child foreign-key values missing from the distinct
non-null parent primary-key values (a duplicate-free list, i.e. a set); it
passes exactly when that set is empty, and on failure its details carry the
orphan count and at most 10 sample orphaned values drawn from the set. -/
theorem referential_integrity_spec (cfg : ValidatorConfig)
    (df parent_df : DataFrame) (refData : List (String × DataFrame))
    (rel : Relationship)
    (hpar : refData.lookup rel.parent = some parent_df)
    (hfk : df.cols.contains rel.foreign_key = true)
    (hpk : parent_df.cols.contains (resolved_pk cfg rel.parent rel.foreign_key) = true) :
    (∀ v, v ∈ ref_orphans df rel.foreign_key parent_df
            (resolved_pk cfg rel.parent rel.foreign_key) ↔
        v ≠ Value.vNull ∧ v ∈ colValues df rel.foreign_key ∧
          v ∉ colValues parent_df (resolved_pk cfg rel.parent rel.foreign_key))
    ∧ (ref_orphans df rel.foreign_key parent_df
        (resolved_pk cfg rel.parent rel.foreign_key)).Nodup
    ∧ ((validate_ref_one cfg df refData rel).passed = true ↔
        ref_orphans df rel.foreign_key parent_df
          (resolved_pk cfg rel.parent rel.foreign_key) = [])
    ∧ ((validate_ref_one cfg df refData rel).passed = false →
        (validate_ref_one cfg df refData rel).details.orphaned_count
            = some (ref_orphans df rel.foreign_key parent_df
                (resolved_pk cfg rel.parent rel.foreign_key)).length
          ∧ (validate_ref_one cfg df refData rel).details.sample_orphaned_keys
            = some ((ref_orphans df rel.foreign_key parent_df
                (resolved_pk cfg rel.parent rel.foreign_key)).take 10)
          ∧ ((ref_orphans df rel.foreign_key parent_df
                (resolved_pk cfg rel.parent rel.foreign_key)).take 10).length ≤ 10
          ∧ ∀ v ∈ (ref_orphans df rel.foreign_key parent_df
                (resolved_pk cfg rel.parent rel.foreign_key)).take 10,
              v ∈ ref_orphans df rel.foreign_key parent_df
                (resolved_pk cfg rel.parent rel.foreign_key)) := by
  refine ⟨mem_ref_orphans_iff df rel.foreign_key parent_df _,
    (List.nodup_dedup _).filter _, ?_, ?_⟩
  · unfold validate_ref_one
    rw [hpar]
    simp only [hfk, Bool.not_true, Bool.false_eq_true, if_false, hpk,
      ite_false]
    split
    · next h =>
      simp only [List.length_eq_zero] at h
      simp [h]
    · next h =>
      simp only [List.length_eq_zero] at h
      simp [h]
  · intro hfail
    by_cases h : (ref_orphans df rel.foreign_key parent_df
        (resolved_pk cfg rel.parent rel.foreign_key)).length = 0
    · exfalso
      unfold validate_ref_one at hfail
      rw [hpar] at hfail
      simp only [hfk, Bool.not_true, Bool.false_eq_true, if_false, hpk,
        ite_false, if_pos h] at hfail
      exact absurd hfail (by decide)
    · unfold validate_ref_one
      rw [hpar]
      simp only [hfk, Bool.not_true, Bool.false_eq_true, if_false, hpk,
        ite_false, if_neg h]
      exact ⟨by simp, by simp, List.length_take_le 10 _,
        fun v hv => List.take_subset 10 _ hv⟩

def parentPatients : DataFrame :=
  ⟨["id"], [[("id", Value.vInt 1)], [("id", Value.vInt 2)], [("id", Value.vInt 3)]]⟩

def childAttendances : DataFrame :=
  ⟨["patient_id"],
   [[("patient_id", Value.vInt 1)], [("patient_id", Value.vInt 2)],
    [("patient_id", Value.vInt 4)]]⟩

def relAttendances : Relationship := ⟨"attendances", "patients", "patient_id"⟩

def cfgRef : ValidatorConfig :=
  { quality := { relationships := [relAttendances] }
    data_sources := [("patients",
      { incremental := false, primary_key := some "id", date_column := none })]
    parse_date := fun _ => none }

def refDataPatients : List (String × DataFrame) := [("patients", parentPatients)]

/-- C6 witness: parent primary keys `{1,2,3}` against child foreign keys
`{1,2,4}` fail the check with orphaned set exactly `{4}`, orphan count 1,
and `{4}` as the sample. -/
theorem referential_integrity_spec_witness :
    (refDataPatients.lookup relAttendances.parent = some parentPatients)
    ∧ ((validate_ref_one cfgRef childAttendances refDataPatients relAttendances).passed = true ↔
        ref_orphans childAttendances "patient_id" parentPatients
          (resolved_pk cfgRef "patients" "patient_id") = [])
    ∧ ref_orphans childAttendances "patient_id" parentPatients
        (resolved_pk cfgRef "patients" "patient_id") = [Value.vInt 4]
    ∧ (validate_ref_one cfgRef childAttendances refDataPatients relAttendances).passed = false
    ∧ (validate_ref_one cfgRef childAttendances refDataPatients relAttendances).details.orphaned_count
        = some 1
    ∧ (validate_ref_one cfgRef childAttendances refDataPatients relAttendances).details.sample_orphaned_keys
        = some [Value.vInt 4] :=
  ⟨by decide,
   (referential_integrity_spec cfgRef childAttendances parentPatients
      refDataPatients relAttendances (by decide) (by decide) (by decide)).2.2.1,
   by decide, by decide, by decide, by decide⟩

/-! ## C7: the duplicate check -/

lemma countP_map_decide_eq {β : Type} [DecidableEq β] (k : Row → β)
    (l : List Row) (t : β) :
    (l.map k).countP (fun x => decide (x = t))
      = l.countP (fun r => decide (k r = t)) := by
  rw [List.countP_map]
  rfl

lemma nodup_iff_countP_lt_two {β : Type} [DecidableEq β] (l : List β) :
    l.Nodup ↔ ∀ b, l.countP (fun x => decide (x = b)) < 2 := by
  rw [List.nodup_iff_count_le_one]
  constructor
  · intro h b
    show l.count b < 2
    have := h b
    omega
  · intro h b
    have h2 : l.count b < 2 := h b
    omega

lemma dup_rows_eq_nil_iff (df : DataFrame) (keys : List String) :
    dup_rows df keys = [] ↔ (df.rows.map (keyTuple keys)).Nodup := by
  unfold dup_rows
  rw [List.filter_eq_nil_iff, nodup_iff_countP_lt_two]
  simp only [decide_eq_true_eq, not_le]
  constructor
  · intro h b
    by_cases hmem : b ∈ df.rows.map (keyTuple keys)
    · obtain ⟨r, hr, hkr⟩ := List.mem_map.mp hmem
      subst hkr
      rw [countP_map_decide_eq]
      exact h r hr
    · have hz : (df.rows.map (keyTuple keys)).countP (fun x => decide (x = b)) = 0 := by
        rw [List.countP_eq_zero]
        intro a ha
        simp only [decide_eq_true_eq]
        intro heq
        exact hmem (heq ▸ ha)
      omega
  · intro h r hr
    have := h (keyTuple keys r)
    rw [countP_map_decide_eq] at this
    exact this

lemma dup_rows_length_eq (df : DataFrame) (keys : List String) :
    (dup_rows df keys).length
      = ((df.rows.map (keyTuple keys)).filter
          (fun t => 2 ≤ (df.rows.map (keyTuple keys)).countP
              (fun t2 => decide (t2 = t)))).length := by
  unfold dup_rows
  rw [← List.countP_eq_length_filter, ← List.countP_eq_length_filter,
    List.countP_map]
  apply List.countP_congr
  intro r _
  simp only [Function.comp_apply, decide_eq_decide]
  rw [countP_map_decide_eq]

/-- C7: with no usable key columns (none configured or none present) the
duplicate check passes trivially with `checked = false` in its details;
otherwise it passes exactly when no two rows agree on all usable key
columns, and on failure `duplicate_count` counts every row belonging to a
duplicated key tuple and at most 5 sample duplicate rows (all rows of the
dataset) are reported. -/
theorem duplicate_check_spec (cfg : ValidatorConfig) (df : DataFrame)
    (source : String) :
    (usable_dup_keys cfg df source = [] →
      (validate_duplicates cfg df source).passed = true
        ∧ (validate_duplicates cfg df source).details.checked = some false)
    ∧ (usable_dup_keys cfg df source ≠ [] →
        ((validate_duplicates cfg df source).passed = true ↔
            (df.rows.map (keyTuple (usable_dup_keys cfg df source))).Nodup)
        ∧ ((validate_duplicates cfg df source).passed = false →
            (validate_duplicates cfg df source).details.duplicate_count
                = some (((df.rows.map (keyTuple (usable_dup_keys cfg df source))).filter
                    (fun t => 2 ≤ (df.rows.map (keyTuple (usable_dup_keys cfg df source))).countP
                        (fun t2 => decide (t2 = t)))).length)
              ∧ ∃ samp, (validate_duplicates cfg df source).details.sample_duplicates = some samp
                  ∧ samp.length ≤ 5 ∧ ∀ r ∈ samp, r ∈ df.rows)) := by
  by_cases hkeys : (resolved_dup_keys cfg df source).isEmpty = true
  · have husable : usable_dup_keys cfg df source = [] := by
      rw [List.isEmpty_iff] at hkeys
      simp [usable_dup_keys, hkeys]
    refine ⟨fun _ => ?_, fun hne => absurd husable hne⟩
    unfold validate_duplicates
    rw [if_pos hkeys]
    exact ⟨rfl, rfl⟩
  · by_cases hus : usable_dup_keys cfg df source = []
    · refine ⟨fun _ => ?_, fun hne => absurd hus hne⟩
      unfold validate_duplicates
      rw [if_neg hkeys, if_pos (by rw [List.isEmpty_iff]; exact hus)]
      exact ⟨rfl, rfl⟩
    · have husE : ¬ (usable_dup_keys cfg df source).isEmpty = true := by
        rw [List.isEmpty_iff]
        exact hus
      refine ⟨fun h => absurd h hus, fun _ => ?_⟩
      by_cases hlen : (dup_rows df (usable_dup_keys cfg df source)).length = 0
      · constructor
        · unfold validate_duplicates
          rw [if_neg hkeys, if_neg husE, if_pos hlen]
          simp only [true_iff]
          rw [← dup_rows_eq_nil_iff, ← List.length_eq_zero]
          exact hlen
        · intro hfail
          unfold validate_duplicates at hfail
          rw [if_neg hkeys, if_neg husE, if_pos hlen] at hfail
          simp at hfail
      · constructor
        · unfold validate_duplicates
          rw [if_neg hkeys, if_neg husE, if_neg hlen]
          simp only [Bool.false_eq_true, false_iff]
          rw [← dup_rows_eq_nil_iff, ← List.length_eq_zero]
          exact hlen
        · intro _
          unfold validate_duplicates
          rw [if_neg hkeys, if_neg husE, if_neg hlen]
          refine ⟨?_, (dup_rows df (usable_dup_keys cfg df source)).take 5, rfl,
            List.length_take_le 5 _, fun r hr => ?_⟩
          · rw [← dup_rows_length_eq]
          · have hsub : dup_rows df (usable_dup_keys cfg df source) ⊆ df.rows := by
              unfold dup_rows
              exact (List.filter_sublist _).subset
            exact hsub (List.take_subset 5 _ hr)

def cfgDup : ValidatorConfig :=
  { quality := { dup_key_columns := ["id"] }
    data_sources := []
    parse_date := fun _ => none }

def dfDup : DataFrame :=
  ⟨["id"], [[("id", Value.vInt 1)], [("id", Value.vInt 1)], [("id", Value.vInt 2)]]⟩

/-- C7 witness: key column `id` over rows `[{id:1},{id:1},{id:2}]` fails the
duplicate check with `duplicate_count = 2` — both rows of `id = 1` counted —
and both duplicated rows among the samples. -/
theorem duplicate_check_spec_witness :
    usable_dup_keys cfgDup dfDup "attendances" = ["id"]
    ∧ ((validate_duplicates cfgDup dfDup "attendances").passed = true ↔
        (dfDup.rows.map (keyTuple (usable_dup_keys cfgDup dfDup "attendances"))).Nodup)
    ∧ (validate_duplicates cfgDup dfDup "attendances").passed = false
    ∧ (validate_duplicates cfgDup dfDup "attendances").details.duplicate_count = some 2
    ∧ (validate_duplicates cfgDup dfDup "attendances").details.sample_duplicates
        = some [[("id", Value.vInt 1)], [("id", Value.vInt 1)]] :=
  ⟨by decide,
   ((duplicate_check_spec cfgDup dfDup "attendances").2 (by decide)).1,
   by decide, by decide, by decide⟩

/-! ## C10: a missing parent primary-key column is a critical failure -/

lemma strContains_ref_integrity (p : String) :
    strContains ("referential_integrity_" ++ p) "referential_integrity" = true := by
  rw [strContains_iff]
  show "referential_integrity".data <:+: ("referential_integrity_" ++ p).data
  rw [String.data_append]
  have h1 : "referential_integrity".data <+: "referential_integrity_".data := by decide
  have h2 : "referential_integrity_".data <+: ("referential_integrity_".data ++ p.data) :=
    List.prefix_append _ _
  exact (h1.trans h2).isInfix

/-- C10: when the parent dataset is supplied and the foreign-key column
exists in the child but the parent's resolved primary-key column is missing
from the parent dataset, the referential-integrity result is a *failure*
that still carries `checked = false`, and it alone triggers the
critical-failure predicate (its name contains `referential_integrity`);
by contrast an absent parent dataset or absent foreign-key column yields a
trivial pass with `checked = false`. -/
theorem ref_missing_parent_key_critical (cfg : ValidatorConfig)
    (df parent_df : DataFrame) (refData : List (String × DataFrame))
    (rel : Relationship)
    (hpar : refData.lookup rel.parent = some parent_df)
    (hfk : df.cols.contains rel.foreign_key = true)
    (hpk : parent_df.cols.contains (resolved_pk cfg rel.parent rel.foreign_key) = false) :
    ((validate_ref_one cfg df refData rel).passed = false
      ∧ (validate_ref_one cfg df refData rel).details.checked = some false
      ∧ has_critical_failures [validate_ref_one cfg df refData rel] = true)
    ∧ (∀ refData2 : List (String × DataFrame), refData2.lookup rel.parent = none →
        (validate_ref_one cfg df refData2 rel).passed = true
          ∧ (validate_ref_one cfg df refData2 rel).details.checked = some false)
    ∧ (∀ df2 : DataFrame, df2.cols.contains rel.foreign_key = false →
        (validate_ref_one cfg df2 refData rel).passed = true
          ∧ (validate_ref_one cfg df2 refData rel).details.checked = some false) := by
  have hres : validate_ref_one cfg df refData rel
      = { check_name := "referential_integrity_" ++ rel.parent, passed := false
          message := "Primary key column not found in parent table"
          details := { checked := some false } } := by
    unfold validate_ref_one
    rw [hpar]
    simp only [hfk, Bool.not_true, Bool.false_eq_true, if_false, hpk,
      Bool.not_false, ite_true]
  refine ⟨⟨by rw [hres], by rw [hres], ?_⟩, ?_, ?_⟩
  · rw [hres]
    simp only [has_critical_failures, critical_checks, List.any_cons,
      List.any_nil, Bool.or_false, Bool.not_false, Bool.true_and]
    rw [strContains_ref_integrity]
    simp
  · intro refData2 hnone
    unfold validate_ref_one
    rw [hnone]
    exact ⟨rfl, rfl⟩
  · intro df2 hfk2
    unfold validate_ref_one
    rw [hpar]
    simp only [hfk2, Bool.not_false, if_true]
    exact ⟨by simp, by simp⟩

def parentMissingPk : DataFrame := ⟨["name"], []⟩

/-- C10 witness: parent `patients` present but lacking its declared primary
key `id`, with the child's `patient_id` present: the emitted result fails
with `checked = false` and flips the critical-failure predicate, while
dropping the parent dataset or the foreign-key column gives trivial passes. -/
theorem ref_missing_parent_key_critical_witness :
    (((validate_ref_one cfgRef childAttendances [("patients", parentMissingPk)]
          relAttendances).passed = false
      ∧ (validate_ref_one cfgRef childAttendances [("patients", parentMissingPk)]
          relAttendances).details.checked = some false
      ∧ has_critical_failures [validate_ref_one cfgRef childAttendances
          [("patients", parentMissingPk)] relAttendances] = true)
    ∧ (∀ refData2 : List (String × DataFrame), refData2.lookup relAttendances.parent = none →
        (validate_ref_one cfgRef childAttendances refData2 relAttendances).passed = true
          ∧ (validate_ref_one cfgRef childAttendances refData2 relAttendances).details.checked
              = some false)
    ∧ (∀ df2 : DataFrame, df2.cols.contains relAttendances.foreign_key = false →
        (validate_ref_one cfgRef df2 [("patients", parentMissingPk)] relAttendances).passed = true
          ∧ (validate_ref_one cfgRef df2 [("patients", parentMissingPk)]
              relAttendances).details.checked = some false)) :=
  ref_missing_parent_key_critical cfgRef childAttendances parentMissingPk
    [("patients", parentMissingPk)] relAttendances (by decide) (by decide) (by decide)
